import Mathlib

/-!
Shallow embedding of the mysql-cli-plugin repository: the binding-discovery
engine (package find-bindings; its implementation file is absent from the
source snapshot, so the discovery traversal is modelled from the spec, see
the doc comments below), the placeholder discovery entry point and the
`Migrate` command of package plugin (plugin.go), and the `Migrator` of
package migrate. Catalog and workflow collaborators are embedded as records
of functions; every operation additionally yields a trace of the calls it
issued, so call-count and call-argument properties can be stated.
-/

namespace MysqlCliPlugin

namespace find_bindings

/-- A single equality predicate `field:value` of a catalog filter query. -/
structure Pred where
  field : String
  value : String
deriving DecidableEq, Repr

/-- A filtered-list query: the list of `q` predicates the call carries. -/
abbrev Query := List Pred

/-- Catalog entity mirroring `cfclient.Service`. -/
structure Service where
  label : String
  guid : String
deriving DecidableEq, Repr

/-- Catalog entity mirroring `cfclient.ServicePlan`. -/
structure ServicePlan where
  name : String
  guid : String
  serviceGuid : String
deriving DecidableEq, Repr

/-- Catalog entity mirroring `cfclient.ServiceInstance`. -/
structure ServiceInstance where
  name : String
  guid : String
  servicePlanGuid : String
  spaceGuid : String
deriving DecidableEq, Repr

/-- Catalog entity mirroring `cfclient.ServiceBinding`. -/
structure ServiceBindingEntity where
  guid : String
  appGuid : String
  serviceInstanceGuid : String
deriving DecidableEq, Repr

/-- Catalog entity mirroring `cfclient.ServiceKey`. -/
structure ServiceKey where
  name : String
deriving DecidableEq, Repr

/-- Catalog entity mirroring `cfclient.App`. -/
structure App where
  guid : String
  name : String
  spaceGuid : String
deriving DecidableEq, Repr

/-- Catalog entity mirroring `cfclient.Space`. -/
structure Space where
  name : String
  organizationGuid : String
deriving DecidableEq, Repr

/-- Catalog entity mirroring `cfclient.Org`. -/
structure Org where
  name : String
deriving DecidableEq, Repr

/-- Output record mirroring `find_bindings.Binding` from finder_test.go. -/
structure Binding where
  name : String
  serviceInstanceName : String
  serviceInstanceGuid : String
  orgName : String
  spaceName : String
  type : String
deriving DecidableEq, Repr

/-- The catalog client interface (the go-cfclient operations the discovery
    engine uses, per finder_test.go and plugin.go): filtered-list calls and
    get-by-guid point lookups, each fallible. -/
structure CFClient where
  listServicesByQuery : Query → Except String (List Service)
  listServicePlansByQuery : Query → Except String (List ServicePlan)
  listServiceInstancesByQuery : Query → Except String (List ServiceInstance)
  listServiceBindingsByQuery : Query → Except String (List ServiceBindingEntity)
  listServiceKeysByQuery : Query → Except String (List ServiceKey)
  getAppByGuid : String → Except String App
  getSpaceByGuid : String → Except String Space
  getOrgByGuid : String → Except String Org

/-- One catalog call issued during discovery; point lookups are tagged with
    the guid of the instance being processed so per-instance call counts can
    be stated. -/
inductive CallEvent where
  | listServices (q : Query)
  | listPlans (q : Query)
  | listInstances (q : Query)
  | listBindings (q : Query)
  | listKeys (q : Query)
  | getApp (instGuid : String) (appGuid : String)
  | getSpace (instGuid : String) (spaceGuid : String)
  | getOrg (instGuid : String) (orgGuid : String)
deriving DecidableEq, Repr

/-- The query of a filtered-list call event, `none` for point lookups. -/
def eventQuery : CallEvent → Option Query
  | .listServices q => some q
  | .listPlans q => some q
  | .listInstances q => some q
  | .listBindings q => some q
  | .listKeys q => some q
  | _ => none

/-- The queries of all filtered-list calls in a trace. -/
def traceQueries (evs : List CallEvent) : List Query :=
  evs.filterMap eventQuery

/-- Whether an event is a getApp lookup issued while processing the
    instance with guid `g`. -/
def isGetAppFor (g : String) : CallEvent → Bool
  | .getApp i _ => i == g
  | _ => false

/-- Whether an event is a getSpace lookup issued while processing the
    instance with guid `g`. -/
def isGetSpaceFor (g : String) : CallEvent → Bool
  | .getSpace i _ => i == g
  | _ => false

/-- Whether an event is a getOrg lookup issued while processing the
    instance with guid `g`. -/
def isGetOrgFor (g : String) : CallEvent → Bool
  | .getOrg i _ => i == g
  | _ => false

/-- Number of getApp lookups in a trace issued while processing the
    instance with guid `g`. -/
def countGetApp (g : String) (evs : List CallEvent) : Nat :=
  evs.countP (isGetAppFor g)

/-- Number of getSpace lookups in a trace issued while processing the
    instance with guid `g`. -/
def countGetSpace (g : String) (evs : List CallEvent) : Nat :=
  evs.countP (isGetSpaceFor g)

/-- Number of getOrg lookups in a trace issued while processing the
    instance with guid `g`. -/
def countGetOrg (g : String) (evs : List CallEvent) : Nat :=
  evs.countP (isGetOrgFor g)

/-- The service-class query `label:<label>` built by the discovery entry
    points (plugin.go line 226 and the finder test's assertion). -/
def serviceQuery (serviceLabel : String) : Query :=
  [⟨"label", serviceLabel⟩]

/-- The plan query `service_guid:<guid>` (finder test assertion). -/
def planQuery (serviceGuid : String) : Query :=
  [⟨"service_guid", serviceGuid⟩]

/-- The instance query `service_plan_guid:<guid>` (finder test assertion). -/
def instanceQuery (planGuid : String) : Query :=
  [⟨"service_plan_guid", planGuid⟩]

/-- The binding query `service_instance_guid:<guid>` (finder test assertion). -/
def bindingQuery (instanceGuid : String) : Query :=
  [⟨"service_instance_guid", instanceGuid⟩]

/-- The key query `service_instance_guid:<guid>` (finder test assertion). -/
def keyQuery (instanceGuid : String) : Query :=
  [⟨"service_instance_guid", instanceGuid⟩]

/-- Modelled from the spec: the Correlator's upward resolution of an App's
    Space and then that Space's Org (spec 4.2 step 2); the finder
    implementation file of package find-bindings is absent from the source
    snapshot. Returns the `(orgName, spaceName)` context together with the
    point lookups issued. -/
def resolveCtx (c : CFClient) (instGuid : String) (app : App) :
    Except String (String × String) × List CallEvent :=
  match c.getSpaceByGuid app.spaceGuid with
  | .error e =>
      (.error ("ReferenceResolutionError: failed resolving Space " ++ app.spaceGuid ++
        " for instance " ++ instGuid ++ ": " ++ e),
       [.getSpace instGuid app.spaceGuid])
  | .ok sp =>
    match c.getOrgByGuid sp.organizationGuid with
    | .error e =>
        (.error ("ReferenceResolutionError: failed resolving Org " ++ sp.organizationGuid ++
          " for instance " ++ instGuid ++ ": " ++ e),
         [.getSpace instGuid app.spaceGuid, .getOrg instGuid sp.organizationGuid])
    | .ok org =>
        (.ok (org.name, sp.name),
         [.getSpace instGuid app.spaceGuid, .getOrg instGuid sp.organizationGuid])

/-- The AppBinding output record for one binding's app, an instance and a
    resolved `(orgName, spaceName)` context. -/
def mkAppBindingRecord (app : App) (inst : ServiceInstance) (ctx : String × String) : Binding :=
  { name := app.name
    serviceInstanceName := inst.name
    serviceInstanceGuid := inst.guid
    orgName := ctx.1
    spaceName := ctx.2
    type := "AppBinding" }

/-- Modelled from the spec: the Correlator's binding loop (spec 4.2 step 2);
    the finder implementation file is absent from the source snapshot. For
    each binding in list order the binding's App is resolved by a point
    lookup; the `(orgName, spaceName)` cache is populated from the first
    binding's App and reused afterwards. Returns the records, the final
    cache and the lookups issued. -/
def correlateBindings (c : CFClient) (inst : ServiceInstance) :
    Option (String × String) → List ServiceBindingEntity →
    (Except String (List Binding × Option (String × String))) × List CallEvent
  | cache, [] => (.ok ([], cache), [])
  | none, b :: bs =>
    match c.getAppByGuid b.appGuid with
    | .error e =>
        (.error ("ReferenceResolutionError: failed resolving App " ++ b.appGuid ++
          " for instance " ++ inst.guid ++ ": " ++ e),
         [.getApp inst.guid b.appGuid])
    | .ok app =>
      match resolveCtx c inst.guid app with
      | (.error e, evs) => (.error e, .getApp inst.guid b.appGuid :: evs)
      | (.ok ctx, evs) =>
        match correlateBindings c inst (some ctx) bs with
        | (.error e, evs2) => (.error e, .getApp inst.guid b.appGuid :: (evs ++ evs2))
        | (.ok (recs, cache2), evs2) =>
            (.ok (mkAppBindingRecord app inst ctx :: recs, cache2),
             .getApp inst.guid b.appGuid :: (evs ++ evs2))
  | some ctx, b :: bs =>
    match c.getAppByGuid b.appGuid with
    | .error e =>
        (.error ("ReferenceResolutionError: failed resolving App " ++ b.appGuid ++
          " for instance " ++ inst.guid ++ ": " ++ e),
         [.getApp inst.guid b.appGuid])
    | .ok app =>
      match correlateBindings c inst (some ctx) bs with
      | (.error e, evs2) => (.error e, .getApp inst.guid b.appGuid :: evs2)
      | (.ok (recs, cache2), evs2) =>
          (.ok (mkAppBindingRecord app inst ctx :: recs, cache2),
           .getApp inst.guid b.appGuid :: evs2)

/-- Modelled from the spec: the Correlator's key loop (spec 4.2 steps 3-4);
    the finder implementation file is absent from the source snapshot. Keys
    reuse the cached context populated by the binding loop; when an instance
    has keys but no bindings the cache is empty and the keys are omitted
    (spec 4.2 step 4 forbids fabricating org/space values; omission is the
    policy chosen here). -/
def correlateKeys (inst : ServiceInstance) :
    Option (String × String) → List ServiceKey → List Binding
  | none, _ => []
  | some ctx, ks =>
      ks.map (fun k =>
        { name := k.name
          serviceInstanceName := inst.name
          serviceInstanceGuid := inst.guid
          orgName := ctx.1
          spaceName := ctx.2
          type := "ServiceKeyBinding" })

/-- Modelled from the spec: the Correlator contract (spec 4.2) applied to one
    instance's bindings and keys; the finder implementation file is absent
    from the source snapshot. -/
def correlate (c : CFClient) (inst : ServiceInstance)
    (bs : List ServiceBindingEntity) (ks : List ServiceKey) :
    Except String (List Binding) × List CallEvent :=
  match correlateBindings c inst none bs with
  | (.error e, evs) => (.error e, evs)
  | (.ok (recs, cache), evs) => (.ok (recs ++ correlateKeys inst cache ks), evs)

/-- Modelled from the spec: Orchestrator step 4 (spec 4.1) for a single
    instance, listing bindings then keys and handing both to the Correlator;
    the finder implementation file is absent from the source snapshot. -/
def processInstance (c : CFClient) (inst : ServiceInstance) :
    Except String (List Binding) × List CallEvent :=
  match c.listServiceBindingsByQuery (bindingQuery inst.guid) with
  | .error e =>
      (.error ("CatalogQueryError: failed listing Bindings for instance " ++ inst.guid ++ ": " ++ e),
       [.listBindings (bindingQuery inst.guid)])
  | .ok bs =>
    match c.listServiceKeysByQuery (keyQuery inst.guid) with
    | .error e =>
        (.error ("CatalogQueryError: failed listing Keys for instance " ++ inst.guid ++ ": " ++ e),
         [.listBindings (bindingQuery inst.guid), .listKeys (keyQuery inst.guid)])
    | .ok ks =>
      let r := correlate c inst bs ks
      (r.fst, .listBindings (bindingQuery inst.guid) :: .listKeys (keyQuery inst.guid) :: r.snd)

/-- Modelled from the spec: Orchestrator instance loop (spec 4.1 step 4),
    fail-fast, concatenating records in instance list order; the finder
    implementation file is absent from the source snapshot. -/
def processInstances (c : CFClient) :
    List ServiceInstance → Except String (List Binding) × List CallEvent
  | [] => (.ok [], [])
  | i :: is =>
    match processInstance c i with
    | (.error e, evs) => (.error e, evs)
    | (.ok recs, evs) =>
      match processInstances c is with
      | (.error e, evs2) => (.error e, evs ++ evs2)
      | (.ok rest, evs2) => (.ok (recs ++ rest), evs ++ evs2)

/-- Modelled from the spec: Orchestrator step 3 (spec 4.1) for one plan; the
    finder implementation file is absent from the source snapshot. -/
def processPlan (c : CFClient) (p : ServicePlan) :
    Except String (List Binding) × List CallEvent :=
  match c.listServiceInstancesByQuery (instanceQuery p.guid) with
  | .error e =>
      (.error ("CatalogQueryError: failed listing Instances for plan " ++ p.guid ++ ": " ++ e),
       [.listInstances (instanceQuery p.guid)])
  | .ok is =>
    let r := processInstances c is
    (r.fst, .listInstances (instanceQuery p.guid) :: r.snd)

/-- Modelled from the spec: Orchestrator plan loop (spec 4.1 steps 2-3),
    fail-fast, concatenating records in plan list order; the finder
    implementation file is absent from the source snapshot. -/
def processPlans (c : CFClient) :
    List ServicePlan → Except String (List Binding) × List CallEvent
  | [] => (.ok [], [])
  | p :: ps =>
    match processPlan c p with
    | (.error e, evs) => (.error e, evs)
    | (.ok recs, evs) =>
      match processPlans c ps with
      | (.error e, evs2) => (.error e, evs ++ evs2)
      | (.ok rest, evs2) => (.ok (recs ++ rest), evs ++ evs2)

/-- Modelled from the spec: the discovery traversal `discover(label)` of
    spec 4.1 (the find-bindings finder, whose implementation file is absent
    from the source snapshot, only finder_test.go being present). Lists
    service classes filtered by label; with zero matches it yields an empty
    result rather than failing, otherwise it uses the single match; results
    and the trace of issued calls are returned together. -/
def findBindingsT (c : CFClient) (serviceLabel : String) :
    Except String (List Binding) × List CallEvent :=
  match c.listServicesByQuery (serviceQuery serviceLabel) with
  | .error e =>
      (.error ("CatalogQueryError: failed listing ServiceClasses for label " ++ serviceLabel ++ ": " ++ e),
       [.listServices (serviceQuery serviceLabel)])
  | .ok [] => (.ok [], [.listServices (serviceQuery serviceLabel)])
  | .ok (svc :: _) =>
    match c.listServicePlansByQuery (planQuery svc.guid) with
    | .error e =>
        (.error ("CatalogQueryError: failed listing Plans for service " ++ svc.guid ++ ": " ++ e),
         [.listServices (serviceQuery serviceLabel), .listPlans (planQuery svc.guid)])
    | .ok plans =>
      let r := processPlans c plans
      (r.fst, .listServices (serviceQuery serviceLabel) :: .listPlans (planQuery svc.guid) :: r.snd)

/-- The discovery output sequence (or error), spec 4.1 contract. -/
def FindBindings (c : CFClient) (serviceLabel : String) :
    Except String (List Binding) :=
  (findBindingsT c serviceLabel).fst

/-- The trace of catalog calls one discovery run issues. -/
def findTrace (c : CFClient) (serviceLabel : String) : List CallEvent :=
  (findBindingsT c serviceLabel).snd

/-- The finder value built by `NewBindingFinder`: it holds only the catalog
    client, mirroring the receiver struct of the discovery engine. -/
structure bindingFinder where
  cfClient : CFClient

/-- Mirrors `NewBindingFinder`. -/
def NewBindingFinder (c : CFClient) : bindingFinder :=
  { cfClient := c }

/-- One method call on the finder: it returns the discovery result and the
    receiver as it stands after the call (the method mutates nothing). -/
def bindingFinder.findBindingsCall (bf : bindingFinder) (serviceLabel : String) :
    (Except String (List Binding)) × bindingFinder :=
  (FindBindings bf.cfClient serviceLabel, bf)

/-- The reference fixture catalog of finder_test.go: ServiceClass "p.mysql"
    with plans small/medium/large; small has instance1 (bound to app1 and
    keyed with key1) and instance2 (unbound, unkeyed); medium has instance3
    (bound to app3 and keyed with key3); large has no instances. -/
def fixtureClient : CFClient where
  listServicesByQuery := fun q =>
    if q = serviceQuery "p.mysql" then .ok [⟨"p.mysql", "service-guid"⟩]
    else .error "no such service"
  listServicePlansByQuery := fun q =>
    if q = planQuery "service-guid" then
      .ok [⟨"small", "small-guid", "service-guid"⟩,
           ⟨"medium", "medium-guid", "service-guid"⟩,
           ⟨"large", "large-guid", "service-guid"⟩]
    else .error "no such plan"
  listServiceInstancesByQuery := fun q =>
    if q = instanceQuery "small-guid" then
      .ok [⟨"instance1", "instance1-guid", "small-guid", "space1-guid"⟩,
           ⟨"instance2", "instance2-guid", "small-guid", "space2-guid"⟩]
    else if q = instanceQuery "medium-guid" then
      .ok [⟨"instance3", "instance3-guid", "medium-guid", "space3-guid"⟩]
    else if q = instanceQuery "large-guid" then .ok []
    else .error "no such instance"
  listServiceBindingsByQuery := fun q =>
    if q = bindingQuery "instance1-guid" then
      .ok [⟨"binding1-guid", "app1-guid", "instance1-guid"⟩]
    else if q = bindingQuery "instance2-guid" then .ok []
    else if q = bindingQuery "instance3-guid" then
      .ok [⟨"binding3-guid", "app3-guid", "instance3-guid"⟩]
    else .error "no such binding"
  listServiceKeysByQuery := fun q =>
    if q = keyQuery "instance1-guid" then .ok [⟨"key1"⟩]
    else if q = keyQuery "instance2-guid" then .ok []
    else if q = keyQuery "instance3-guid" then .ok [⟨"key3"⟩]
    else .error "no such key"
  getAppByGuid := fun g =>
    if g = "app1-guid" then .ok ⟨"app1-guid", "app1", "space1-guid"⟩
    else if g = "app3-guid" then .ok ⟨"app3-guid", "app3", "space3-guid"⟩
    else .error "no such app"
  getSpaceByGuid := fun g =>
    if g = "space1-guid" then .ok ⟨"app1-space", "app1-org-guid"⟩
    else if g = "space3-guid" then .ok ⟨"app3-space", "app3-org-guid"⟩
    else .error "no such space"
  getOrgByGuid := fun g =>
    if g = "app1-org-guid" then .ok ⟨"app1-org"⟩
    else if g = "app3-org-guid" then .ok ⟨"app3-org"⟩
    else .error "no such org"

/-- A catalog client on which every call fails: a full catalog outage. -/
def failingCFClient : CFClient where
  listServicesByQuery := fun _ => .error "catalog unavailable"
  listServicePlansByQuery := fun _ => .error "catalog unavailable"
  listServiceInstancesByQuery := fun _ => .error "catalog unavailable"
  listServiceBindingsByQuery := fun _ => .error "catalog unavailable"
  listServiceKeysByQuery := fun _ => .error "catalog unavailable"
  getAppByGuid := fun _ => .error "catalog unavailable"
  getSpaceByGuid := fun _ => .error "catalog unavailable"
  getOrgByGuid := fun _ => .error "catalog unavailable"

/-- A catalog with service "db", one plan, and one instance i1 carrying two
    bindings whose apps live in the same space. -/
def twoBindingsClient : CFClient where
  listServicesByQuery := fun q =>
    if q = serviceQuery "db" then .ok [⟨"db", "svc-guid"⟩] else .ok []
  listServicePlansByQuery := fun q =>
    if q = planQuery "svc-guid" then .ok [⟨"p1", "plan1-guid", "svc-guid"⟩] else .ok []
  listServiceInstancesByQuery := fun q =>
    if q = instanceQuery "plan1-guid" then
      .ok [⟨"i1", "i1-guid", "plan1-guid", "sp1-guid"⟩]
    else .ok []
  listServiceBindingsByQuery := fun q =>
    if q = bindingQuery "i1-guid" then
      .ok [⟨"b1-guid", "a1-guid", "i1-guid"⟩, ⟨"b2-guid", "a2-guid", "i1-guid"⟩]
    else .ok []
  listServiceKeysByQuery := fun _ => .ok []
  getAppByGuid := fun g =>
    if g = "a1-guid" then .ok ⟨"a1-guid", "a1", "sp1-guid"⟩
    else if g = "a2-guid" then .ok ⟨"a2-guid", "a2", "sp1-guid"⟩
    else .error "no such app"
  getSpaceByGuid := fun g =>
    if g = "sp1-guid" then .ok ⟨"sp1", "o1-guid"⟩ else .error "no such space"
  getOrgByGuid := fun g =>
    if g = "o1-guid" then .ok ⟨"o1"⟩ else .error "no such org"

/-- A catalog with one instance that has a service key but no bindings. -/
def keysOnlyClient : CFClient where
  listServicesByQuery := fun q =>
    if q = serviceQuery "db" then .ok [⟨"db", "svc-guid"⟩] else .ok []
  listServicePlansByQuery := fun q =>
    if q = planQuery "svc-guid" then .ok [⟨"p1", "plan1-guid", "svc-guid"⟩] else .ok []
  listServiceInstancesByQuery := fun q =>
    if q = instanceQuery "plan1-guid" then
      .ok [⟨"ki", "ki-guid", "plan1-guid", "sp1-guid"⟩]
    else .ok []
  listServiceBindingsByQuery := fun _ => .ok []
  listServiceKeysByQuery := fun q =>
    if q = keyQuery "ki-guid" then .ok [⟨"k1"⟩] else .ok []
  getAppByGuid := fun _ => .error "no such app"
  getSpaceByGuid := fun _ => .error "no such space"
  getOrgByGuid := fun _ => .error "no such org"

/-- A catalog in which no service class matches any label. -/
def emptyCatalogClient : CFClient where
  listServicesByQuery := fun _ => .ok []
  listServicePlansByQuery := fun _ => .ok []
  listServiceInstancesByQuery := fun _ => .ok []
  listServiceBindingsByQuery := fun _ => .ok []
  listServiceKeysByQuery := fun _ => .ok []
  getAppByGuid := fun _ => .error "no such app"
  getSpaceByGuid := fun _ => .error "no such space"
  getOrgByGuid := fun _ => .error "no such org"

end find_bindings

namespace plugin

/-- Mirrors `plugin.ServiceBinding` (plugin.go lines 189-194). -/
structure ServiceBinding where
  app : String
  key : String
  org : String
  space : String
deriving DecidableEq, Repr

/-- Mirrors the placeholder `bindingFinder.FindBindings` of plugin.go lines
    206-231: it builds the query `label:<serviceLabel>`, issues the
    service-class list call, discards both its result and its error
    (`services, _ :=`), and returns a hardcoded one-record list with a nil
    error. -/
def FindBindings (cfClient : MysqlCliPlugin.find_bindings.CFClient)
    (serviceLabel : String) : Except String (List ServiceBinding) :=
  match cfClient.listServicesByQuery (MysqlCliPlugin.find_bindings.serviceQuery serviceLabel) with
  | _ => Except.ok [{ app := "app", key := "", org := "org-name", space := "space-name" }]

/-- The `plugin.Migrator` interface (plugin.go lines 44-50): each step either
    succeeds (`none`) or fails with an error message. -/
structure Migrator where
  checkServiceExists : String → Option String
  createAndConfigureServiceInstance : String → String → Option String
  migrateData : String → String → Bool → Option String
  renameServiceInstances : String → String → Option String
  cleanupOnError : String → Option String

/-- One call `Migrate` makes on its `Migrator`. -/
inductive MigratorCall where
  | checkServiceExists (name : String)
  | createAndConfigureServiceInstance (plan : String) (name : String)
  | migrateData (donor : String) (recipient : String) (cleanup : Bool)
  | renameServiceInstances (donor : String) (recipient : String)
  | cleanupOnError (name : String)
deriving DecidableEq, Repr

/-- Mirrors `plugin.Migrate` (plugin.go lines 114-182) after argument
    parsing: `source` and `planName` are the two positional arguments and
    `noCleanup` the `--no-cleanup` flag. The recipient name is the donor
    name plus "-new"; on a create or migrate failure, when cleanup is
    enabled, `CleanupOnError` is invoked (its error discarded) and a
    wrapping error returned; the calls issued on the `Migrator` are traced. -/
def Migrate (m : Migrator) (source : String) (planName : String)
    (noCleanup : Bool) : Except String Unit × List MigratorCall :=
  let donorInstanceName := source
  let tempRecipientInstanceName := donorInstanceName ++ "-new"
  let destPlan := planName
  let cleanup := !noCleanup
  match m.checkServiceExists donorInstanceName with
  | some e => (.error e, [.checkServiceExists donorInstanceName])
  | none =>
    match m.createAndConfigureServiceInstance destPlan tempRecipientInstanceName with
    | some e =>
      if cleanup then
        (.error ("error creating service instance: " ++ e ++
           ". Attempting to clean up service " ++ tempRecipientInstanceName),
         [.checkServiceExists donorInstanceName,
          .createAndConfigureServiceInstance destPlan tempRecipientInstanceName,
          .cleanupOnError tempRecipientInstanceName])
      else
        (.error ("error creating service instance: " ++ e ++
           ". Not cleaning up service " ++ tempRecipientInstanceName),
         [.checkServiceExists donorInstanceName,
          .createAndConfigureServiceInstance destPlan tempRecipientInstanceName])
    | none =>
      match m.migrateData donorInstanceName tempRecipientInstanceName cleanup with
      | some e =>
        if cleanup then
          (.error ("error migrating data: " ++ e ++
             ". Attempting to clean up service " ++ tempRecipientInstanceName),
           [.checkServiceExists donorInstanceName,
            .createAndConfigureServiceInstance destPlan tempRecipientInstanceName,
            .migrateData donorInstanceName tempRecipientInstanceName cleanup,
            .cleanupOnError tempRecipientInstanceName])
        else
          (.error ("error migrating data: " ++ e ++
             ". Not cleaning up service " ++ tempRecipientInstanceName),
           [.checkServiceExists donorInstanceName,
            .createAndConfigureServiceInstance destPlan tempRecipientInstanceName,
            .migrateData donorInstanceName tempRecipientInstanceName cleanup])
      | none =>
        match m.renameServiceInstances donorInstanceName tempRecipientInstanceName with
        | some e =>
          (.error e,
           [.checkServiceExists donorInstanceName,
            .createAndConfigureServiceInstance destPlan tempRecipientInstanceName,
            .migrateData donorInstanceName tempRecipientInstanceName cleanup,
            .renameServiceInstances donorInstanceName tempRecipientInstanceName])
        | none =>
          (.ok (),
           [.checkServiceExists donorInstanceName,
            .createAndConfigureServiceInstance destPlan tempRecipientInstanceName,
            .migrateData donorInstanceName tempRecipientInstanceName cleanup,
            .renameServiceInstances donorInstanceName tempRecipientInstanceName])

/-- The `CleanupOnError` calls among a list of `Migrator` calls. -/
def cleanupCalls (calls : List MigratorCall) : List MigratorCall :=
  calls.filter (fun c => match c with | .cleanupOnError _ => true | _ => false)

/-- A `Migrator` whose instance-creation step fails and whose other steps
    succeed. -/
def failingCreateMigrator : Migrator where
  checkServiceExists := fun _ => none
  createAndConfigureServiceInstance := fun _ _ => some "quota exceeded"
  migrateData := fun _ _ _ => none
  renameServiceInstances := fun _ _ => none
  cleanupOnError := fun _ => none

end plugin

namespace migrate

/-- The `migrate.client` interface (the migrate package, lines 27-40): each
    remote operation either succeeds or fails with an error message;
    `GetHostnames` returns the hostnames on success. -/
structure client where
  serviceExists : String → Bool
  createServiceInstance : String → String → Option String
  getHostnames : String → Except String (List String)
  updateServiceConfig : String → String → Option String
  bindService : String → String → Option String
  deleteApp : String → Option String
  deleteServiceInstance : String → Option String
  pushApp : String → String → Option String
  renameService : String → String → Option String
  runTask : String → String → Option String
  startApp : String → Option String

/-- The `migrate.unpacker` interface. -/
structure unpacker where
  unpack : String → Option String

/-- One call the `Migrator` makes on its client or unpacker. -/
inductive ClientCall where
  | createServiceInstance (plan : String) (name : String)
  | getHostnames (name : String)
  | updateServiceConfig (name : String) (params : String)
  | bindService (app : String) (svc : String)
  | deleteApp (name : String)
  | deleteServiceInstance (name : String)
  | dumpLogs (app : String)
  | pushApp (path : String) (name : String)
  | renameService (oldName : String) (newName : String)
  | runTask (app : String) (command : String)
  | startApp (name : String)
  | unpack (dir : String)
deriving DecidableEq, Repr

/-- Go's `%s` formatting of a string slice: `[a b c]`. -/
def goFormatSlice (xs : List String) : String :=
  "[" ++ String.intercalate " " xs ++ "]"

/-- The JSON parameter string built by `CreateAndConfigureServiceInstance`
    for `UpdateServiceConfig`. -/
def tlsJSONParams (instanceIP : List String) : String :=
  "\x7b\"enable_tls\": [\"" ++ goFormatSlice instanceIP ++ "\"]\x7d"

/-- Mirrors `Migrator.CreateAndConfigureServiceInstance` (migrate package
    lines 67-81): a create failure is wrapped and returned; a `GetHostnames`
    failure deletes the just-created instance and returns a wrapped error;
    the `UpdateServiceConfig` error is assigned and then dropped, the
    function returning nil. -/
def CreateAndConfigureServiceInstance (c : client)
    (planType : String) (serviceName : String) : Option String × List ClientCall :=
  match c.createServiceInstance planType serviceName with
  | some e =>
      (some ("Error creating service instance: " ++ e),
       [.createServiceInstance planType serviceName])
  | none =>
    match c.getHostnames serviceName with
    | .error e =>
        (some ("Error obtaining hostname for new service instance: " ++ e),
         [.createServiceInstance planType serviceName,
          .getHostnames serviceName,
          .deleteServiceInstance serviceName])
    | .ok instanceIP =>
        (none,
         [.createServiceInstance planType serviceName,
          .getHostnames serviceName,
          .updateServiceConfig serviceName (tlsJSONParams instanceIP)])

/-- Mirrors `Migrator.MigrateData` (migrate package lines 83-136).
    `tmpDirRes` stands for the temp-directory creation, `uuidStr` for the
    value of `uuid.New()`. After a successful `PushApp`, the deferred
    `DeleteApp` runs on every return path (last, in defer LIFO order); on a
    `RunTask` failure `DumpLogs` runs before the deferred delete. -/
def MigrateData (c : client) (u : unpacker) (tmpDirRes : Except String String)
    (uuidStr : String) (donorInstanceName : String) (recipientInstanceName : String) :
    Option String × List ClientCall :=
  match tmpDirRes with
  | .error e => (some ("Error creating temp directory: " ++ e), [])
  | .ok tmpDir =>
    match u.unpack tmpDir with
    | some e => (some ("Error extracting migrate assets: " ++ e), [.unpack tmpDir])
    | none =>
      let appName := "migrate-app-" ++ uuidStr
      match c.pushApp tmpDir appName with
      | some e =>
          (some ("failed to push application: " ++ e),
           [.unpack tmpDir, .pushApp tmpDir appName])
      | none =>
        match c.bindService appName donorInstanceName with
        | some e =>
            (some ("failed to bind-service \"" ++ appName ++ "\" to application \"" ++
               donorInstanceName ++ "\": " ++ e),
             [.unpack tmpDir, .pushApp tmpDir appName,
              .bindService appName donorInstanceName, .deleteApp appName])
        | none =>
          match c.bindService appName recipientInstanceName with
          | some e =>
              (some ("failed to bind-service \"" ++ appName ++ "\" to application \"" ++
                 recipientInstanceName ++ "\": " ++ e),
               [.unpack tmpDir, .pushApp tmpDir appName,
                .bindService appName donorInstanceName,
                .bindService appName recipientInstanceName, .deleteApp appName])
          | none =>
            match c.startApp appName with
            | some e =>
                (some ("failed to start application \"" ++ appName ++ "\": " ++ e),
                 [.unpack tmpDir, .pushApp tmpDir appName,
                  .bindService appName donorInstanceName,
                  .bindService appName recipientInstanceName,
                  .startApp appName, .deleteApp appName])
            | none =>
              let command := "./migrate " ++ donorInstanceName ++ " " ++ recipientInstanceName
              match c.runTask appName command with
              | some e =>
                  (some e,
                   [.unpack tmpDir, .pushApp tmpDir appName,
                    .bindService appName donorInstanceName,
                    .bindService appName recipientInstanceName,
                    .startApp appName, .runTask appName command,
                    .dumpLogs appName, .deleteApp appName])
              | none =>
                  (none,
                   [.unpack tmpDir, .pushApp tmpDir appName,
                    .bindService appName donorInstanceName,
                    .bindService appName recipientInstanceName,
                    .startApp appName, .runTask appName command,
                    .deleteApp appName])

/-- A client whose `GetHostnames` fails and whose other operations
    succeed. -/
def hostnameFailClient : client where
  serviceExists := fun _ => true
  createServiceInstance := fun _ _ => none
  getHostnames := fun _ => .error "timeout"
  updateServiceConfig := fun _ _ => none
  bindService := fun _ _ => none
  deleteApp := fun _ => none
  deleteServiceInstance := fun _ => none
  pushApp := fun _ _ => none
  renameService := fun _ _ => none
  runTask := fun _ _ => none
  startApp := fun _ => none

/-- A client on which every operation succeeds. -/
def happyMClient : client where
  serviceExists := fun _ => true
  createServiceInstance := fun _ _ => none
  getHostnames := fun _ => .ok ["10.0.0.1"]
  updateServiceConfig := fun _ _ => none
  bindService := fun _ _ => none
  deleteApp := fun _ => none
  deleteServiceInstance := fun _ => none
  pushApp := fun _ _ => none
  renameService := fun _ _ => none
  runTask := fun _ _ => none
  startApp := fun _ => none

/-- An unpacker that always succeeds. -/
def okUnpacker : unpacker where
  unpack := fun _ => none

end migrate

/-- Whether an `Except` value is an error. -/
def isErr : Except ε α → Bool
  | .error _ => true
  | .ok _ => false

end MysqlCliPlugin

namespace MysqlCliPlugin.plugin

/-- C1: the discovery entry point in plugin.go does NOT fail fast. On a
    client whose service-class list call fails, the placeholder
    `FindBindings` of plugin.go discards the error (`services, _ :=`) and
    returns a hardcoded one-record output with a nil error, instead of
    aborting with the error and no output as the spec requires. -/
theorem findBindings_placeholder_swallows_error :
    MysqlCliPlugin.find_bindings.failingCFClient.listServicesByQuery
        (MysqlCliPlugin.find_bindings.serviceQuery "p.mysql") =
      .error "catalog unavailable" ∧
    FindBindings MysqlCliPlugin.find_bindings.failingCFClient "p.mysql" =
      .ok [{ app := "app", key := "", org := "org-name", space := "space-name" }] :=
  ⟨rfl, rfl⟩

end MysqlCliPlugin.plugin

namespace MysqlCliPlugin.find_bindings

/-- C2: on the reference fixture catalog of finder_test.go, discovery for
    label "p.mysql" returns exactly the four expected records, in the exact
    order (app1, key1, app3, key3), and instance2 contributes no record. -/
theorem findBindings_reference_fixture :
    FindBindings fixtureClient "p.mysql" =
      .ok [{ name := "app1", serviceInstanceName := "instance1",
             serviceInstanceGuid := "instance1-guid", orgName := "app1-org",
             spaceName := "app1-space", type := "AppBinding" },
           { name := "key1", serviceInstanceName := "instance1",
             serviceInstanceGuid := "instance1-guid", orgName := "app1-org",
             spaceName := "app1-space", type := "ServiceKeyBinding" },
           { name := "app3", serviceInstanceName := "instance3",
             serviceInstanceGuid := "instance3-guid", orgName := "app3-org",
             spaceName := "app3-space", type := "AppBinding" },
           { name := "key3", serviceInstanceName := "instance3",
             serviceInstanceGuid := "instance3-guid", orgName := "app3-org",
             spaceName := "app3-space", type := "ServiceKeyBinding" }] := by
  rfl

/-- C3: an instance whose binding list is empty contributes no output
    record at all, whatever its keys are: the org/space cache is never
    populated, and rather than fabricating org/space values the keys are
    omitted. -/
theorem keys_without_bindings_emit_no_records
    (c : CFClient) (inst : ServiceInstance) (ks : List ServiceKey)
    (hb : c.listServiceBindingsByQuery (bindingQuery inst.guid) = .ok [])
    (hk : c.listServiceKeysByQuery (keyQuery inst.guid) = .ok ks) :
    (processInstance c inst).fst = .ok [] := by
  simp [processInstance, hb, hk, correlate, correlateBindings, correlateKeys]

/-- C3 witness: on a catalog whose instance ki has the key k1 and no
    bindings, processing ki emits no records. -/
theorem keys_without_bindings_emit_no_records_witness :
    (processInstance keysOnlyClient ⟨"ki", "ki-guid", "plan1-guid", "sp1-guid"⟩).fst =
      .ok [] :=
  keys_without_bindings_emit_no_records keysOnlyClient
    ⟨"ki", "ki-guid", "plan1-guid", "sp1-guid"⟩ [⟨"k1"⟩] rfl rfl

/-- C5: when the service-class list call matches nothing, discovery returns
    an empty output sequence and no error. -/
theorem findBindings_no_matching_service (c : CFClient) (serviceLabel : String)
    (h : c.listServicesByQuery (serviceQuery serviceLabel) = .ok []) :
    FindBindings c serviceLabel = .ok [] := by
  simp [FindBindings, findBindingsT, h]

/-- C5 witness: on the catalog with no service classes, discovery for
    "p.mysql" returns the empty sequence without failing. -/
theorem findBindings_no_matching_service_witness :
    FindBindings emptyCatalogClient "p.mysql" = .ok [] :=
  findBindings_no_matching_service emptyCatalogClient "p.mysql" rfl

/-- C8: discovery is idempotent and retains no state: a second call on the
    finder returned by the first call yields the same result, and the
    finder after the first call is the finder it started as. -/
theorem findBindings_idempotent (bf : bindingFinder) (serviceLabel : String) :
    ((bf.findBindingsCall serviceLabel).snd.findBindingsCall serviceLabel).fst =
      (bf.findBindingsCall serviceLabel).fst ∧
    (bf.findBindingsCall serviceLabel).snd = bf :=
  ⟨rfl, rfl⟩

end MysqlCliPlugin.find_bindings

namespace MysqlCliPlugin.plugin

/-- C7: when creating the recipient instance fails, or it succeeds and
    migrating data fails, `Migrate` returns an error in both cleanup modes;
    with cleanup enabled (no `--no-cleanup`) it invokes `CleanupOnError`
    exactly once, on the recipient instance donor + "-new", and with
    `--no-cleanup` it invokes no cleanup at all. -/
theorem migrate_cleanup_on_failure (m : Migrator) (source planName e : String)
    (hchk : m.checkServiceExists source = none)
    (hfail : m.createAndConfigureServiceInstance planName (source ++ "-new") = some e ∨
      (m.createAndConfigureServiceInstance planName (source ++ "-new") = none ∧
       ∀ b, m.migrateData source (source ++ "-new") b = some e)) :
    MysqlCliPlugin.isErr (Migrate m source planName false).fst = true ∧
    cleanupCalls (Migrate m source planName false).snd =
      [.cleanupOnError (source ++ "-new")] ∧
    MysqlCliPlugin.isErr (Migrate m source planName true).fst = true ∧
    cleanupCalls (Migrate m source planName true).snd = [] := by
  rcases hfail with h | ⟨hc, hm⟩
  · simp [Migrate, hchk, h, cleanupCalls, MysqlCliPlugin.isErr, List.filter]
  · simp [Migrate, hchk, hc, hm, cleanupCalls, MysqlCliPlugin.isErr, List.filter]

/-- C7 witness: on a migrator whose creation step fails, `Migrate d plan`
    with cleanup enabled cleans up d-new and errors, and with cleanup
    disabled errors without cleaning up. -/
theorem migrate_cleanup_on_failure_witness :
    MysqlCliPlugin.isErr (Migrate failingCreateMigrator "d" "plan" false).fst = true ∧
    cleanupCalls (Migrate failingCreateMigrator "d" "plan" false).snd =
      [.cleanupOnError ("d" ++ "-new")] ∧
    MysqlCliPlugin.isErr (Migrate failingCreateMigrator "d" "plan" true).fst = true ∧
    cleanupCalls (Migrate failingCreateMigrator "d" "plan" true).snd = [] :=
  migrate_cleanup_on_failure failingCreateMigrator "d" "plan" "quota exceeded"
    rfl (Or.inl rfl)

end MysqlCliPlugin.plugin

namespace MysqlCliPlugin.migrate

/-- C9: `CreateAndConfigureServiceInstance` fails exactly when creating the
    instance or fetching its hostnames fails; an `UpdateServiceConfig`
    failure is discarded (the call still returns nil), and on a
    `GetHostnames` failure the just-created instance is deleted before the
    wrapped error is returned. -/
theorem createAndConfigure_error_semantics (c : client) (planType serviceName : String) :
    ((CreateAndConfigureServiceInstance c planType serviceName).fst.isSome = true ↔
      ((c.createServiceInstance planType serviceName).isSome = true ∨
       MysqlCliPlugin.isErr (c.getHostnames serviceName) = true)) ∧
    (∀ e, c.createServiceInstance planType serviceName = none →
      c.getHostnames serviceName = .error e →
      CreateAndConfigureServiceInstance c planType serviceName =
        (some ("Error obtaining hostname for new service instance: " ++ e),
         [.createServiceInstance planType serviceName, .getHostnames serviceName,
          .deleteServiceInstance serviceName])) := by
  constructor
  · cases h1 : c.createServiceInstance planType serviceName with
    | some e => simp [CreateAndConfigureServiceInstance, h1]
    | none =>
      cases h2 : c.getHostnames serviceName with
      | error e => simp [CreateAndConfigureServiceInstance, h1, h2, MysqlCliPlugin.isErr]
      | ok ip => simp [CreateAndConfigureServiceInstance, h1, h2, MysqlCliPlugin.isErr]
  · intro e h1 h2
    simp [CreateAndConfigureServiceInstance, h1, h2]

/-- C9 witness: on a client whose `GetHostnames` times out, the call creates
    the instance, fails obtaining hostnames, deletes the instance and
    returns the wrapped error. -/
theorem createAndConfigure_error_semantics_witness :
    CreateAndConfigureServiceInstance hostnameFailClient "plan" "svc" =
      (some ("Error obtaining hostname for new service instance: " ++ "timeout"),
       [.createServiceInstance "plan" "svc", .getHostnames "svc",
        .deleteServiceInstance "svc"]) :=
  (createAndConfigure_error_semantics hostnameFailClient "plan" "svc").2
    "timeout" rfl rfl

/-- C10: once `PushApp` has succeeded, the pushed migration app
    migrate-app-<uuid> is deleted (by the deferred `DeleteApp`, hence as the
    very last client call) before `MigrateData` returns, on every subsequent
    path: bind, start and run-task may succeed or fail arbitrarily. -/
theorem migrateData_always_deletes_app (c : client) (u : unpacker)
    (tmpDir uuidStr donor recipient : String)
    (hunpack : u.unpack tmpDir = none)
    (hpush : c.pushApp tmpDir ("migrate-app-" ++ uuidStr) = none) :
    (MigrateData c u (.ok tmpDir) uuidStr donor recipient).snd.getLast? =
      some (.deleteApp ("migrate-app-" ++ uuidStr)) := by
  cases h1 : c.bindService ("migrate-app-" ++ uuidStr) donor with
  | some e => simp [MigrateData, hunpack, hpush, h1]
  | none =>
    cases h2 : c.bindService ("migrate-app-" ++ uuidStr) recipient with
    | some e => simp [MigrateData, hunpack, hpush, h1, h2]
    | none =>
      cases h3 : c.startApp ("migrate-app-" ++ uuidStr) with
      | some e => simp [MigrateData, hunpack, hpush, h1, h2, h3]
      | none =>
        cases h4 : c.runTask ("migrate-app-" ++ uuidStr)
            ("./migrate " ++ donor ++ " " ++ recipient) with
        | some e => simp [MigrateData, hunpack, hpush, h1, h2, h3, h4]
        | none => simp [MigrateData, hunpack, hpush, h1, h2, h3, h4]

/-- C10 witness: on the all-success client the pushed app migrate-app-u1 is
    the last thing deleted before `MigrateData` returns. -/
theorem migrateData_always_deletes_app_witness :
    (MigrateData happyMClient okUnpacker (.ok "/tmp/assets") "u1" "d" "d-new").snd.getLast? =
      some (.deleteApp ("migrate-app-" ++ "u1")) :=
  migrateData_always_deletes_app happyMClient okUnpacker "/tmp/assets" "u1" "d" "d-new"
    rfl rfl

end MysqlCliPlugin.migrate

namespace MysqlCliPlugin.find_bindings

theorem traceQueries_resolveCtx (c : CFClient) (i : String) (a : App) :
    traceQueries (resolveCtx c i a).snd = [] := by
  cases h : c.getSpaceByGuid a.spaceGuid with
  | error e => simp [resolveCtx, h, traceQueries, eventQuery]
  | ok sp =>
    cases h2 : c.getOrgByGuid sp.organizationGuid with
    | error e => simp [resolveCtx, h, h2, traceQueries, eventQuery]
    | ok org => simp [resolveCtx, h, h2, traceQueries, eventQuery]

theorem traceQueries_correlateBindings (c : CFClient) (inst : ServiceInstance)
    (bs : List ServiceBindingEntity) :
    ∀ cache, traceQueries (correlateBindings c inst cache bs).snd = [] := by
  induction bs with
  | nil => intro cache; cases cache <;> rfl
  | cons b bs ih =>
    intro cache
    cases cache with
    | none =>
      cases happ : c.getAppByGuid b.appGuid with
      | error e => simp [correlateBindings, happ, traceQueries, eventQuery]
      | ok app =>
        rcases hres : resolveCtx c inst.guid app with ⟨res, evs⟩
        have hevs : List.filterMap eventQuery evs = [] := by
          have h := traceQueries_resolveCtx c inst.guid app
          rw [hres] at h
          simpa [traceQueries] using h
        cases res with
        | error e =>
          simp [correlateBindings, happ, hres, traceQueries, eventQuery, hevs]
        | ok ctx =>
          rcases hcb : correlateBindings c inst (some ctx) bs with ⟨res2, evs2⟩
          have hevs2 : List.filterMap eventQuery evs2 = [] := by
            have h := ih (some ctx)
            rw [hcb] at h
            simpa [traceQueries] using h
          cases res2 with
          | error e =>
            simp [correlateBindings, happ, hres, hcb, traceQueries, eventQuery,
              List.filterMap_append, hevs, hevs2]
          | ok p =>
            rcases p with ⟨recs, cache2⟩
            simp [correlateBindings, happ, hres, hcb, traceQueries, eventQuery,
              List.filterMap_append, hevs, hevs2]
    | some ctx =>
      cases happ : c.getAppByGuid b.appGuid with
      | error e => simp [correlateBindings, happ, traceQueries, eventQuery]
      | ok app =>
        rcases hcb : correlateBindings c inst (some ctx) bs with ⟨res2, evs2⟩
        have hevs2 : List.filterMap eventQuery evs2 = [] := by
          have h := ih (some ctx)
          rw [hcb] at h
          simpa [traceQueries] using h
        cases res2 with
        | error e =>
          simp [correlateBindings, happ, hcb, traceQueries, eventQuery, hevs2]
        | ok p =>
          rcases p with ⟨recs, cache2⟩
          simp [correlateBindings, happ, hcb, traceQueries, eventQuery, hevs2]

theorem traceQueries_correlate (c : CFClient) (inst : ServiceInstance)
    (bs : List ServiceBindingEntity) (ks : List ServiceKey) :
    traceQueries (correlate c inst bs ks).snd = [] := by
  rcases h : correlateBindings c inst none bs with ⟨res, evs⟩
  have hevs : traceQueries evs = [] := by
    have h2 := traceQueries_correlateBindings c inst bs none
    rw [h] at h2
    exact h2
  cases res with
  | error e => simpa [correlate, h] using hevs
  | ok p =>
    rcases p with ⟨recs, cache⟩
    simpa [correlate, h] using hevs

theorem queries_processInstance (c : CFClient) (inst : ServiceInstance) :
    ∀ q ∈ traceQueries (processInstance c inst).snd, q.length = 1 := by
  cases hb : c.listServiceBindingsByQuery (bindingQuery inst.guid) with
  | error e =>
    simp only [processInstance, hb]
    simp [traceQueries, eventQuery, bindingQuery]
  | ok bs =>
    cases hk : c.listServiceKeysByQuery (keyQuery inst.guid) with
    | error e =>
      simp only [processInstance, hb, hk]
      simp [traceQueries, eventQuery, bindingQuery, keyQuery]
    | ok ks =>
      have hc : List.filterMap eventQuery (correlate c inst bs ks).snd = [] := by
        simpa [traceQueries] using traceQueries_correlate c inst bs ks
      simp only [processInstance, hb, hk]
      simp [traceQueries, eventQuery, bindingQuery, keyQuery, hc]

theorem queries_processInstances (c : CFClient) :
    ∀ is : List ServiceInstance,
      ∀ q ∈ traceQueries (processInstances c is).snd, q.length = 1 := by
  intro is
  induction is with
  | nil => simp [processInstances, traceQueries]
  | cons i is ih =>
    rcases h : processInstance c i with ⟨res, evs⟩
    have h1 : ∀ q ∈ traceQueries evs, q.length = 1 := by
      have h2 := queries_processInstance c i
      rw [h] at h2
      exact h2
    cases res with
    | error e => simpa [processInstances, h] using h1
    | ok recs =>
      rcases h2 : processInstances c is with ⟨res2, evs2⟩
      have h3 : ∀ q ∈ traceQueries evs2, q.length = 1 := by
        have h4 := ih
        rw [h2] at h4
        exact h4
      cases res2 with
      | error e =>
        simp only [processInstances, h, h2, traceQueries, List.filterMap_append]
        intro q hq
        rcases List.mem_append.mp hq with hq | hq
        · exact h1 q hq
        · exact h3 q hq
      | ok rest =>
        simp only [processInstances, h, h2, traceQueries, List.filterMap_append]
        intro q hq
        rcases List.mem_append.mp hq with hq | hq
        · exact h1 q hq
        · exact h3 q hq

theorem queries_processPlan (c : CFClient) (p : ServicePlan) :
    ∀ q ∈ traceQueries (processPlan c p).snd, q.length = 1 := by
  cases h : c.listServiceInstancesByQuery (instanceQuery p.guid) with
  | error e =>
    simp only [processPlan, h]
    simp [traceQueries, eventQuery, instanceQuery]
  | ok is =>
    have h1 := queries_processInstances c is
    simp only [processPlan, h, traceQueries, List.filterMap_cons, eventQuery]
    intro q hq
    rcases List.mem_cons.mp hq with hq | hq
    · subst hq; simp [instanceQuery]
    · exact h1 q hq

theorem queries_processPlans (c : CFClient) :
    ∀ ps : List ServicePlan,
      ∀ q ∈ traceQueries (processPlans c ps).snd, q.length = 1 := by
  intro ps
  induction ps with
  | nil => simp [processPlans, traceQueries]
  | cons p ps ih =>
    rcases h : processPlan c p with ⟨res, evs⟩
    have h1 : ∀ q ∈ traceQueries evs, q.length = 1 := by
      have h2 := queries_processPlan c p
      rw [h] at h2
      exact h2
    cases res with
    | error e => simpa [processPlans, h] using h1
    | ok recs =>
      rcases h2 : processPlans c ps with ⟨res2, evs2⟩
      have h3 : ∀ q ∈ traceQueries evs2, q.length = 1 := by
        have h4 := ih
        rw [h2] at h4
        exact h4
      cases res2 with
      | error e =>
        simp only [processPlans, h, h2, traceQueries, List.filterMap_append]
        intro q hq
        rcases List.mem_append.mp hq with hq | hq
        · exact h1 q hq
        · exact h3 q hq
      | ok rest =>
        simp only [processPlans, h, h2, traceQueries, List.filterMap_append]
        intro q hq
        rcases List.mem_append.mp hq with hq | hq
        · exact h1 q hq
        · exact h3 q hq

/-- C6: every filtered-list call one discovery run issues carries exactly
    one equality predicate, and the first call of the run is the
    service-class list with the single predicate label:L. -/
theorem single_predicate_queries (c : CFClient) (serviceLabel : String) :
    (∀ q ∈ traceQueries (findTrace c serviceLabel), q.length = 1) ∧
    (findTrace c serviceLabel).head? =
      some (.listServices [⟨"label", serviceLabel⟩]) := by
  constructor
  · cases h : c.listServicesByQuery (serviceQuery serviceLabel) with
    | error e =>
      simp only [findTrace, findBindingsT, h]
      simp [traceQueries, eventQuery, serviceQuery]
    | ok ss =>
      cases ss with
      | nil =>
        simp only [findTrace, findBindingsT, h]
        simp [traceQueries, eventQuery, serviceQuery]
      | cons svc rest =>
        cases h2 : c.listServicePlansByQuery (planQuery svc.guid) with
        | error e =>
          simp only [findTrace, findBindingsT, h, h2]
          simp [traceQueries, eventQuery, serviceQuery, planQuery]
        | ok plans =>
          have h3 := queries_processPlans c plans
          simp only [findTrace, findBindingsT, h, h2, traceQueries,
            List.filterMap_cons, eventQuery]
          intro q hq
          rcases List.mem_cons.mp hq with hq | hq
          · subst hq; simp [serviceQuery]
          rcases List.mem_cons.mp hq with hq | hq
          · subst hq; simp [planQuery]
          · exact h3 q hq
  · cases h : c.listServicesByQuery (serviceQuery serviceLabel) with
    | error e =>
      simp only [findTrace, findBindingsT, h]
      simp [serviceQuery]
    | ok ss =>
      cases ss with
      | nil =>
        simp only [findTrace, findBindingsT, h]
        simp [serviceQuery]
      | cons svc rest =>
        cases h2 : c.listServicePlansByQuery (planQuery svc.guid) with
        | error e =>
          simp only [findTrace, findBindingsT, h, h2]
          simp [serviceQuery]
        | ok plans =>
          simp only [findTrace, findBindingsT, h, h2]
          simp [serviceQuery]

theorem countP_correlateBindings_some (c : CFClient) (inst : ServiceInstance)
    (p : CallEvent → Bool) (hApp : ∀ i a, p (.getApp i a) = false)
    (ctx : String × String) (bs : List ServiceBindingEntity) :
    ((correlateBindings c inst (some ctx) bs).snd.countP p) = 0 := by
  induction bs with
  | nil => simp [correlateBindings]
  | cons b bs ih =>
    cases happ : c.getAppByGuid b.appGuid with
    | error e => simp [correlateBindings, happ, List.countP_cons, hApp]
    | ok app =>
      rcases hcb : correlateBindings c inst (some ctx) bs with ⟨res2, evs2⟩
      have h0 : evs2.countP p = 0 := by rw [hcb] at ih; exact ih
      cases res2 with
      | error e => simp [correlateBindings, happ, hcb, List.countP_cons, hApp, h0]
      | ok q =>
        rcases q with ⟨recs, cache2⟩
        simp [correlateBindings, happ, hcb, List.countP_cons, hApp, h0]

theorem countGetSpace_resolveCtx (c : CFClient) (i : String) (a : App) (g : String) :
    ((resolveCtx c i a).snd.countP (isGetSpaceFor g)) ≤ 1 := by
  cases h : c.getSpaceByGuid a.spaceGuid with
  | error e =>
    simp only [resolveCtx, h]
    simp [List.countP_cons, isGetSpaceFor]
    split <;> simp
  | ok sp =>
    cases h2 : c.getOrgByGuid sp.organizationGuid with
    | error e =>
      simp only [resolveCtx, h, h2]
      simp [List.countP_cons, isGetSpaceFor]
      split <;> simp
    | ok o =>
      simp only [resolveCtx, h, h2]
      simp [List.countP_cons, isGetSpaceFor]
      split <;> simp

theorem countGetOrg_resolveCtx (c : CFClient) (i : String) (a : App) (g : String) :
    ((resolveCtx c i a).snd.countP (isGetOrgFor g)) ≤ 1 := by
  cases h : c.getSpaceByGuid a.spaceGuid with
  | error e =>
    simp only [resolveCtx, h]
    simp [List.countP_cons, isGetOrgFor]
  | ok sp =>
    cases h2 : c.getOrgByGuid sp.organizationGuid with
    | error e =>
      simp only [resolveCtx, h, h2]
      simp [List.countP_cons, isGetOrgFor]
      split <;> simp
    | ok o =>
      simp only [resolveCtx, h, h2]
      simp [List.countP_cons, isGetOrgFor]
      split <;> simp

theorem countP_correlateBindings_none (c : CFClient) (inst : ServiceInstance)
    (p : CallEvent → Bool) (hApp : ∀ i a, p (.getApp i a) = false)
    (hRes : ∀ a : App, ((resolveCtx c inst.guid a).snd.countP p) ≤ 1)
    (bs : List ServiceBindingEntity) :
    ((correlateBindings c inst none bs).snd.countP p) ≤ 1 := by
  cases bs with
  | nil => simp [correlateBindings]
  | cons b bs =>
    cases happ : c.getAppByGuid b.appGuid with
    | error e => simp [correlateBindings, happ, List.countP_cons, hApp]
    | ok app =>
      rcases hres : resolveCtx c inst.guid app with ⟨rr, evs⟩
      have hs : evs.countP p ≤ 1 := by
        have h := hRes app
        rw [hres] at h
        exact h
      cases rr with
      | error e =>
        simp only [correlateBindings, happ, hres]
        simpa [List.countP_cons, hApp] using hs
      | ok ctx =>
        rcases hcb : correlateBindings c inst (some ctx) bs with ⟨res2, evs2⟩
        have h0 : evs2.countP p = 0 := by
          have h := countP_correlateBindings_some c inst p hApp ctx bs
          rw [hcb] at h
          exact h
        cases res2 with
        | error e =>
          simp only [correlateBindings, happ, hres, hcb]
          simpa [List.countP_cons, List.countP_append, hApp, h0] using hs
        | ok q =>
          rcases q with ⟨recs, cache2⟩
          simp only [correlateBindings, happ, hres, hcb]
          simpa [List.countP_cons, List.countP_append, hApp, h0] using hs

theorem countP_correlate (c : CFClient) (inst : ServiceInstance)
    (bs : List ServiceBindingEntity) (ks : List ServiceKey)
    (p : CallEvent → Bool) (hApp : ∀ i a, p (.getApp i a) = false)
    (hRes : ∀ a : App, ((resolveCtx c inst.guid a).snd.countP p) ≤ 1) :
    ((correlate c inst bs ks).snd.countP p) ≤ 1 := by
  rcases h : correlateBindings c inst none bs with ⟨res, evs⟩
  have h1 : evs.countP p ≤ 1 := by
    have h2 := countP_correlateBindings_none c inst p hApp hRes bs
    rw [h] at h2
    exact h2
  cases res with
  | error e => simpa [correlate, h] using h1
  | ok q =>
    rcases q with ⟨recs, cache⟩
    simpa [correlate, h] using h1

theorem countP_processInstance (c : CFClient) (inst : ServiceInstance)
    (p : CallEvent → Bool) (hApp : ∀ i a, p (.getApp i a) = false)
    (hRes : ∀ a : App, ((resolveCtx c inst.guid a).snd.countP p) ≤ 1)
    (hLB : ∀ q, p (.listBindings q) = false) (hLK : ∀ q, p (.listKeys q) = false) :
    ((processInstance c inst).snd.countP p) ≤ 1 := by
  cases hb : c.listServiceBindingsByQuery (bindingQuery inst.guid) with
  | error e =>
    simp only [processInstance, hb]
    simp [List.countP_cons, hLB]
  | ok bs =>
    cases hk : c.listServiceKeysByQuery (keyQuery inst.guid) with
    | error e =>
      simp only [processInstance, hb, hk]
      simp [List.countP_cons, hLB, hLK]
    | ok ks =>
      have h1 := countP_correlate c inst bs ks p hApp hRes
      simp only [processInstance, hb, hk]
      simpa [List.countP_cons, hLB, hLK] using h1

theorem correlateBindings_some_preserves (c : CFClient) (inst : ServiceInstance)
    (ctx : String × String) :
    ∀ (bs : List ServiceBindingEntity) (recs : List Binding)
      (cache2 : Option (String × String)) (evs : List CallEvent),
      correlateBindings c inst (some ctx) bs = (.ok (recs, cache2), evs) →
      cache2 = some ctx ∧ ∀ r ∈ recs, r.orgName = ctx.1 ∧ r.spaceName = ctx.2 := by
  intro bs
  induction bs with
  | nil =>
    intro recs cache2 evs h
    simp only [correlateBindings, Prod.mk.injEq, Except.ok.injEq] at h
    obtain ⟨⟨h1, h2⟩, h3⟩ := h
    subst h1
    subst h2
    simp
  | cons b bs ih =>
    intro recs cache2 evs h
    cases happ : c.getAppByGuid b.appGuid with
    | error e => simp [correlateBindings, happ] at h
    | ok app =>
      rcases hcb : correlateBindings c inst (some ctx) bs with ⟨res2, evs2⟩
      cases res2 with
      | error e => simp [correlateBindings, happ, hcb] at h
      | ok q =>
        rcases q with ⟨recs2, cache2b⟩
        have hih := ih recs2 cache2b evs2 (by rw [hcb])
        simp only [correlateBindings, happ, hcb, Prod.mk.injEq, Except.ok.injEq] at h
        obtain ⟨⟨h1, h2⟩, h3⟩ := h
        subst h1
        subst h2
        refine ⟨hih.1, ?_⟩
        intro r hr
        rcases List.mem_cons.mp hr with hr | hr
        · subst hr
          exact ⟨rfl, rfl⟩
        · exact hih.2 r hr

theorem correlate_records_ctx (c : CFClient) (inst : ServiceInstance)
    (b : ServiceBindingEntity) (bs : List ServiceBindingEntity) (ks : List ServiceKey)
    (app : App) (ctx : String × String) (recs : List Binding)
    (happ : c.getAppByGuid b.appGuid = .ok app)
    (hctx : (resolveCtx c inst.guid app).fst = .ok ctx)
    (hok : (correlate c inst (b :: bs) ks).fst = .ok recs) :
    ∀ r ∈ recs, r.orgName = ctx.1 ∧ r.spaceName = ctx.2 := by
  rcases hres : resolveCtx c inst.guid app with ⟨rr, evs⟩
  rw [hres] at hctx
  simp only at hctx
  subst hctx
  rcases hcb : correlateBindings c inst (some ctx) bs with ⟨res2, evs2⟩
  cases res2 with
  | error e =>
    simp [correlate, correlateBindings, happ, hres, hcb] at hok
  | ok q =>
    rcases q with ⟨recs2, cache2⟩
    have hpres := correlateBindings_some_preserves c inst ctx bs recs2 cache2 evs2
      (by rw [hcb])
    simp only [correlate, correlateBindings, happ, hres, hcb, Except.ok.injEq] at hok
    subst hok
    intro r hr
    rcases List.mem_cons.mp hr with hr | hr
    · subst hr
      exact ⟨rfl, rfl⟩
    rcases List.mem_append.mp hr with hr | hr
    · exact hpres.2 r hr
    · rw [hpres.1] at hr
      simp only [correlateKeys, List.mem_map] at hr
      obtain ⟨k, _, hk⟩ := hr
      subst hk
      exact ⟨rfl, rfl⟩

/-- C4 counterexample: on the catalog twoBindingsClient, whose single
    instance i1 has two bindings, one discovery run for label "db" issues
    the getApp lookup twice while processing i1, refuting "getApp ... at
    most once per instance". -/
theorem getApp_not_once_per_instance :
    ¬ countGetApp "i1-guid" (findTrace twoBindingsClient "db") ≤ 1 := by
  decide

/-- C4 (amended): while processing one instance, getSpace and getOrg are
    each invoked at most once, and the org/space context of every record
    the instance contributes — bindings and keys alike — is the one
    resolved from the first-encountered binding's app; getApp, by contrast,
    runs once per binding of the instance. -/
theorem per_instance_context_resolution (c : CFClient) (inst : ServiceInstance)
    (b : ServiceBindingEntity) (bs : List ServiceBindingEntity) (ks : List ServiceKey)
    (app : App) (ctx : String × String) (recs : List Binding)
    (hb : c.listServiceBindingsByQuery (bindingQuery inst.guid) = .ok (b :: bs))
    (hk : c.listServiceKeysByQuery (keyQuery inst.guid) = .ok ks)
    (happ : c.getAppByGuid b.appGuid = .ok app)
    (hctx : (resolveCtx c inst.guid app).fst = .ok ctx)
    (hres : (processInstance c inst).fst = .ok recs) :
    countGetSpace inst.guid (processInstance c inst).snd ≤ 1 ∧
    countGetOrg inst.guid (processInstance c inst).snd ≤ 1 ∧
    ∀ r ∈ recs, r.orgName = ctx.1 ∧ r.spaceName = ctx.2 := by
  refine ⟨?_, ?_, ?_⟩
  · exact countP_processInstance c inst (isGetSpaceFor inst.guid)
      (fun i a => rfl) (fun a => countGetSpace_resolveCtx c inst.guid a inst.guid)
      (fun q => rfl) (fun q => rfl)
  · exact countP_processInstance c inst (isGetOrgFor inst.guid)
      (fun i a => rfl) (fun a => countGetOrg_resolveCtx c inst.guid a inst.guid)
      (fun q => rfl) (fun q => rfl)
  · have hok : (correlate c inst (b :: bs) ks).fst = .ok recs := by
      simp only [processInstance, hb, hk] at hres
      exact hres
    exact correlate_records_ctx c inst b bs ks app ctx recs happ hctx hok

/-- C4 witness: on the reference fixture, processing instance1 issues
    getSpace and getOrg at most once, and both of instance1's records (the
    app1 binding and the key1 key) carry the org/space resolved from
    app1. -/
theorem per_instance_context_resolution_witness :
    countGetSpace "instance1-guid"
        (processInstance fixtureClient
          ⟨"instance1", "instance1-guid", "small-guid", "space1-guid"⟩).snd ≤ 1 ∧
    countGetOrg "instance1-guid"
        (processInstance fixtureClient
          ⟨"instance1", "instance1-guid", "small-guid", "space1-guid"⟩).snd ≤ 1 ∧
    ∀ r ∈ [({ name := "app1", serviceInstanceName := "instance1",
              serviceInstanceGuid := "instance1-guid", orgName := "app1-org",
              spaceName := "app1-space", type := "AppBinding" } : Binding),
           { name := "key1", serviceInstanceName := "instance1",
             serviceInstanceGuid := "instance1-guid", orgName := "app1-org",
             spaceName := "app1-space", type := "ServiceKeyBinding" }],
      r.orgName = (("app1-org", "app1-space") : String × String).1 ∧
      r.spaceName = (("app1-org", "app1-space") : String × String).2 :=
  per_instance_context_resolution fixtureClient
    ⟨"instance1", "instance1-guid", "small-guid", "space1-guid"⟩
    ⟨"binding1-guid", "app1-guid", "instance1-guid"⟩ [] [⟨"key1"⟩]
    ⟨"app1-guid", "app1", "space1-guid"⟩ ("app1-org", "app1-space") _
    rfl rfl rfl rfl rfl

/-- C6 witness: on the reference fixture, the first issued call is the
    service-class list with the single predicate label:p.mysql, and in
    particular that concrete query has exactly one predicate. -/
theorem single_predicate_queries_witness :
    ([⟨"label", "p.mysql"⟩] : Query).length = 1 ∧
    (findTrace fixtureClient "p.mysql").head? =
      some (.listServices [⟨"label", "p.mysql"⟩]) :=
  ⟨(single_predicate_queries fixtureClient "p.mysql").1
      [⟨"label", "p.mysql"⟩] (by decide),
    (single_predicate_queries fixtureClient "p.mysql").2⟩

end MysqlCliPlugin.find_bindings
